import Mathlib

/-!
Verification of the ChromeVox `cvox.NavigationShifter` controller
(`src/trunk/chromevox/chromevox/injected/navigation_shifter.js`).

The controller owns a list of seven walker slots (one per granularity rank
0..6), a current index, a cached current walker, a subnavigation flag and
the table/math mode flags.  Walkers themselves, `cvox.DomUtil` and
`cvox.CursorSelection` are external collaborators: walker identities are an
enumeration, DOM queries and walker capabilities are fields of an `Env`
record, and a selection is its start node plus the reversed flag (the only
parts of `cvox.CursorSelection` the controller reads).
-/

/-- The nine walker instances created by `reset_`.  JS compares walkers by
object identity (`==`); each instance is one constructor. -/
inductive Walker where
  | character
  | word
  | line
  | sentence
  | object
  | group
  | visual
  | table
  | math
deriving DecidableEq, Repr

/-- The part of `cvox.CursorSelection` the controller reads: the start
anchor's node (`sel.start.node`, nodes are ids) and the reversed flag. -/
structure Sel where
  start : Nat
  reversed : Bool
deriving DecidableEq, Repr

/-- `sel.setReversed(rev)` on a `cvox.CursorSelection`. -/
def Sel.setReversed (sel : Sel) (rev : Bool) : Sel :=
  { sel with reversed := rev }

/-- Modelled from the spec: the math walker's internal sub-mode state
(domain, traversal mode, explore), which §4.1 calls "the math walker's
internal sub-mode state", plus the granularity saved by
`setSavedGranularity`.  `cvox.MathWalker`'s source is not under `src/`. -/
structure MathWalkerState where
  domain : Nat
  traversalMode : Nat
  explore : Bool
  savedGranularity : Option Nat
deriving DecidableEq, Repr

/-- Modelled from the spec: the math walker's initial sub-mode
configuration, before any cycling. -/
def initMathWalkerState : MathWalkerState :=
  { domain := 0, traversalMode := 0, explore := false, savedGranularity := none }

/-- Modelled from the spec: `MathWalker.reset()` restores the walker's
sub-mode state to its initial configuration. -/
def MathWalkerState.reset (m : MathWalkerState) : MathWalkerState :=
  { m with domain := 0, traversalMode := 0, explore := false }

/-- Modelled from the spec: `MathWalker.cycleDomain()` advances to the next
domain.  The concrete cycle is internal to the walker; it is modelled as a
counter, which suffices because the controller never interprets it. -/
def MathWalkerState.cycleDomain (m : MathWalkerState) : MathWalkerState :=
  { m with domain := m.domain + 1 }

/-- Modelled from the spec: `MathWalker.cycleTraversalMode()` advances to
the next traversal mode (modelled as a counter, as for the domain). -/
def MathWalkerState.cycleTraversalMode (m : MathWalkerState) : MathWalkerState :=
  { m with traversalMode := m.traversalMode + 1 }

/-- Modelled from the spec: `MathWalker.toggleExplore()` toggles the
explore sub-mode. -/
def MathWalkerState.toggleExplore (m : MathWalkerState) : MathWalkerState :=
  { m with explore := !m.explore }

/-- `MathWalker.setSavedGranularity(g)`, called by `ensureMathMode_`. -/
def MathWalkerState.setSavedGranularity (m : MathWalkerState) (g : Nat) :
    MathWalkerState :=
  { m with savedGranularity := some g }

/-- The external collaborators (`cvox.DomUtil`, `cvox.CursorSelection` and
the walkers' capabilities), as the controller consumes them.  Each field is
one external function the controller calls; the walkers' internal traversal
is opaque.  `fuel` bounds the leaf walk of `tryExitMath`: the JS do-while
terminates because the DOM is finite, so any bound at least the number of
DOM leaves is faithful. -/
structure Env where
  getContainingTable : Nat → Option Nat
  isLayoutTable : Nat → Bool
  getContainingMath : Nat → Option Nat
  directedNextLeafNode : Nat → Bool → Option Nat
  hasContent : Nat → Bool
  countFocusableDescendants : Nat → Nat
  /-- `walker.sync(sel)` for each walker instance. -/
  walkerSync : Walker → Sel → Option Sel
  /-- `walker.syncToPageBeginning(kwargs)` (the Bool is `kwargs.reversed`). -/
  walkerSyncToPageBeginning : Walker → Bool → Option Sel
  /-- `tableWalker_.goToFirstCell(sel)`. -/
  goToFirstCell : Sel → Option Sel
  /-- `mathWalker_.isInMath(sel)`. -/
  mathIsInMath : Sel → Bool
  fuel : Nat

/-- `cvox.CursorSelection.fromNode(node)`.  Modelled from the spec: builds
a (forward) selection at the given node, and is null for a null node —
`tryExitMath` guards its result with `if (sel)`. -/
def fromNode (n : Option Nat) : Option Sel :=
  n.map (fun k => { start := k, reversed := false })

namespace NavigationShifter

/-- `cvox.NavigationShifter.GRANULARITIES`. -/
def GRANULARITIES.CHARACTER : Nat := 0
def GRANULARITIES.WORD : Nat := 1
def GRANULARITIES.LINE : Nat := 2
def GRANULARITIES.SENTENCE : Nat := 3
def GRANULARITIES.OBJECT : Nat := 4
def GRANULARITIES.GROUP : Nat := 5
def GRANULARITIES.VISUAL : Nat := 6

/-- The controller's mutable fields, exactly as `reset_` initialises them:
the three flags, the walker slot array `walkers_`, the current index and
the cached `currentWalker_` (`walkers_[currentWalkerIndex_]`; out-of-range
JS indexing yields `undefined`, modelled as `none`), plus the math walker's
internal state (the one walker whose state the controller touches, via
`reset()` and `setSavedGranularity()`). -/
structure NavState where
  isSubnavigating_ : Bool
  isTableMode_ : Bool
  isMathMode_ : Bool
  walkers_ : List Walker
  currentWalkerIndex_ : Nat
  currentWalker_ : Option Walker
  mathWalkerState_ : MathWalkerState
deriving DecidableEq, Repr

/-- The `walkers_` array as `reset_` builds it (character … visual). -/
def resetWalkers : List Walker :=
  [.character, .word, .line, .sentence, .object, .group, .visual]

/-- `reset_()`: flags cleared, fresh walkers, index at the group walker
(`walkers_.indexOf(this.groupWalker_)` = 5). -/
def resetState : NavState :=
  { isSubnavigating_ := false
    isTableMode_ := false
    isMathMode_ := false
    walkers_ := resetWalkers
    currentWalkerIndex_ := 5
    currentWalker_ := resetWalkers.get? 5
    mathWalkerState_ := initMathWalkerState }

/-- `isSubnavigating()`. -/
def isSubnavigating (s : NavState) : Bool :=
  s.isSubnavigating_

/-- `isTableMode()`: the flag, and `currentWalker_ == tableWalker_`. -/
def isTableMode (s : NavState) : Bool :=
  s.isTableMode_ && decide (s.currentWalker_ = some Walker.table)

/-- `isMathMode()`: the flag, and `currentWalker_ == mathWalker_`. -/
def isMathMode (s : NavState) : Bool :=
  s.isMathMode_ && decide (s.currentWalker_ = some Walker.math)

/-- The index/cache update of `makeMoreGranular` after its leading
`ensureNotSubnavigating()` call:
`currentWalkerIndex_ = Math.max(currentWalkerIndex_ - 1, 0)` (Nat
subtraction is exactly `Math.max(i - 1, 0)` for a non-negative `i`),
then `currentWalker_ = walkers_[currentWalkerIndex_]`. -/
def moreGranularShift (s : NavState) : NavState :=
  let i := s.currentWalkerIndex_ - 1
  { s with currentWalkerIndex_ := i, currentWalker_ := s.walkers_.get? i }

/-- The index/cache update of `makeLessGranular` after its leading
`ensureNotSubnavigating()` call:
`currentWalkerIndex_ = Math.min(currentWalkerIndex_ + 1, walkers_.length - 1)`,
then `currentWalker_ = walkers_[currentWalkerIndex_]`. -/
def lessGranularShift (s : NavState) : NavState :=
  let i := min (s.currentWalkerIndex_ + 1) (s.walkers_.length - 1)
  { s with currentWalkerIndex_ := i, currentWalker_ := s.walkers_.get? i }

/-- `ensureNotSubnavigating()`: if subnavigating, clear the flag and call
`makeLessGranular()`.  In the source that call begins with a further
`ensureNotSubnavigating()`, a no-op because the flag was just cleared, so
the dynamic mutual recursion bottoms out after one step; here that inner
no-op call is inlined away and only the shift remains. -/
def ensureNotSubnavigating (s : NavState) : NavState :=
  if s.isSubnavigating_ = true then
    lessGranularShift { s with isSubnavigating_ := false }
  else s

/-- `makeMoreGranular()`: `ensureNotSubnavigating()`, then shift one step
more granular (clamped at 0). -/
def makeMoreGranular (s : NavState) : NavState :=
  moreGranularShift (ensureNotSubnavigating s)

/-- `makeLessGranular()`: `ensureNotSubnavigating()`, then shift one step
less granular (clamped at `walkers_.length - 1`). -/
def makeLessGranular (s : NavState) : NavState :=
  lessGranularShift (ensureNotSubnavigating s)

/-- `setGranularity(granularity)`: `ensureNotSubnavigating()`, then set the
index directly and refresh the cached walker. -/
def setGranularity (s : NavState) (granularity : Nat) : NavState :=
  let s1 := ensureNotSubnavigating s
  { s1 with currentWalkerIndex_ := granularity
            currentWalker_ := s1.walkers_.get? granularity }

/-- `ensureSubnavigating()`: if not subnavigating, `makeMoreGranular()`
then set the flag. -/
def ensureSubnavigating (s : NavState) : NavState :=
  if s.isSubnavigating_ = false then
    { makeMoreGranular s with isSubnavigating_ := true }
  else s

/-- `getGranularity()`: remember whether subnavigating, temporarily exit
subnavigation, read the index, re-enter if needed; returns the read value
and the post-call state. -/
def getGranularity (s : NavState) : Nat × NavState :=
  let wasSubnavigating := isSubnavigating s
  let s1 := ensureNotSubnavigating s
  let ret := s1.currentWalkerIndex_
  let s2 := if wasSubnavigating then ensureSubnavigating s1 else s1
  (ret, s2)

/-- `storeOn(store)`: `store['granularity'] = this.getGranularity()`.  The
store's single key is the returned rank. -/
def storeOn (s : NavState) : Nat × NavState :=
  getGranularity s

/-- `readFrom(store)`: `this.setGranularity(store['granularity'])`. -/
def readFrom (s : NavState) (store : Nat) : NavState :=
  setGranularity s store

/-- `sync(sel)`: delegate to `currentWalker_.sync(sel)`.  A delegation
through an `undefined` cached walker (out-of-range index, a JS crash) is
modelled as null; no reachable state hits it. -/
def sync (env : Env) (s : NavState) (sel : Sel) : Option Sel :=
  s.currentWalker_.bind (fun w => env.walkerSync w sel)

/-- `ensureTableMode_()`: set the flag, put the table walker in the GROUP
slot, force the index to GROUP, refresh the cache. -/
def ensureTableMode_ (s : NavState) : NavState :=
  let w := s.walkers_.set GRANULARITIES.GROUP Walker.table
  { s with isTableMode_ := true
           walkers_ := w
           currentWalkerIndex_ := GRANULARITIES.GROUP
           currentWalker_ := w.get? GRANULARITIES.GROUP }

/-- `ensureNotTableMode()`: clear the flag, restore the group walker into
the GROUP slot, refresh the cache at the unchanged index. -/
def ensureNotTableMode (s : NavState) : NavState :=
  let w := s.walkers_.set GRANULARITIES.GROUP Walker.group
  { s with isTableMode_ := false
           walkers_ := w
           currentWalker_ := w.get? s.currentWalkerIndex_ }

/-- `tryEnterTable(sel, kwargs)`: null if the `isTableMode_` flag is set;
otherwise look for a containing table and, unless it is a layout table not
being forced, `ensureTableMode_()` and return `goToFirstCell` (`fromTop`)
or the resynced selection.  Returns the result and the post-call state. -/
def tryEnterTable (env : Env) (s : NavState) (sel : Sel)
    (force fromTop : Bool) : Option Sel × NavState :=
  if s.isTableMode_ then (none, s)
  else
    match env.getContainingTable sel.start with
    | some tableNode =>
      if force || !env.isLayoutTable tableNode then
        let s1 := ensureTableMode_ s
        if fromTop then (env.goToFirstCell sel, s1)
        else (sync env s1 sel, s1)
      else (none, s)
    | none => (none, s)

/-- `syncToPageBeginning(kwargs)`: `ensureNotTableMode()` first, then
delegate to the current walker. -/
def syncToPageBeginning (env : Env) (s : NavState) (reversed : Bool) :
    Option Sel × NavState :=
  let s1 := ensureNotTableMode s
  (s1.currentWalker_.bind (fun w => env.walkerSyncToPageBeginning w reversed), s1)

/-- `syncNode(sel)`: group-sync and object-sync the selection; if the
group-sync's start has more than one focusable descendant commit to OBJECT
granularity and return the object-sync, else commit to GROUP and return the
group-sync.  (The source also passes the chosen selection through
`this.sync(...)` discarding the result; that call reads no controller state
and changes none, so it leaves no trace here.) -/
def syncNode (env : Env) (s : NavState) (sel : Sel) : Option Sel × NavState :=
  let group := env.walkerSync Walker.group sel
  let object := env.walkerSync Walker.object sel
  match group with
  | some g =>
    if env.countFocusableDescendants g.start > 1 then
      (object, setGranularity s GRANULARITIES.OBJECT)
    else (group, setGranularity s GRANULARITIES.GROUP)
  | none => (group, setGranularity s GRANULARITIES.GROUP)

/-- `isMathMode()` delegations to the math walker's sub-mode:
`cycleDomain()`. -/
def cycleDomain (s : NavState) : NavState :=
  { s with mathWalkerState_ := s.mathWalkerState_.cycleDomain }

/-- `cycleTraversalMode()`. -/
def cycleTraversalMode (s : NavState) : NavState :=
  { s with mathWalkerState_ := s.mathWalkerState_.cycleTraversalMode }

/-- `toggleExplore()`. -/
def toggleExplore (s : NavState) : NavState :=
  { s with mathWalkerState_ := s.mathWalkerState_.toggleExplore }

/-- `isInMath(sel)`: pure forward to `mathWalker_.isInMath(sel)`. -/
def isInMath (env : Env) (sel : Sel) : Bool :=
  env.mathIsInMath sel

/-- `ensureMathMode_()`: set the flag, put the math walker in the GROUP
slot, save the pre-change index on the math walker, force the index to
GROUP, refresh the cache. -/
def ensureMathMode_ (s : NavState) : NavState :=
  let w := s.walkers_.set GRANULARITIES.GROUP Walker.math
  { s with isMathMode_ := true
           walkers_ := w
           mathWalkerState_ :=
             s.mathWalkerState_.setSavedGranularity s.currentWalkerIndex_
           currentWalkerIndex_ := GRANULARITIES.GROUP
           currentWalker_ := w.get? GRANULARITIES.GROUP }

/-- `ensureNotMathMode()`: clear the flag, `mathWalker_.reset()`, restore
the group walker into the GROUP slot, refresh the cache at the unchanged
index. -/
def ensureNotMathMode (s : NavState) : NavState :=
  let w := s.walkers_.set GRANULARITIES.GROUP Walker.group
  { s with isMathMode_ := false
           mathWalkerState_ := s.mathWalkerState_.reset
           walkers_ := w
           currentWalker_ := w.get? s.currentWalkerIndex_ }

/-- `tryEnterMath(sel)`: null if the `isMathMode_` flag is set; otherwise
look for a containing math node and, if found, `ensureMathMode_()` and
return the resynced selection. -/
def tryEnterMath (env : Env) (s : NavState) (sel : Sel) :
    Option Sel × NavState :=
  if s.isMathMode_ then (none, s)
  else
    match env.getContainingMath sel.start with
    | some _ =>
      let s1 := ensureMathMode_ s
      (sync env s1 sel, s1)
    | none => (none, s)

/-- The do-while of `tryExitMath`:
`do { node = directedNextLeafNode(node, rev); } while (node && !hasContent(node))`.
Steps from `node` and returns the first content-bearing leaf, or none when
the chain ends.  The JS loop terminates because the DOM is finite; `fuel`
(any bound at least the DOM's leaf count) makes that explicit. -/
def findContentLeaf (env : Env) (rev : Bool) : Nat → Nat → Option Nat
  | 0, _ => none
  | fuel + 1, node =>
    match env.directedNextLeafNode node rev with
    | none => none
    | some n => if env.hasContent n then some n else findContentLeaf env rev fuel n

/-- `tryExitMath(sel, rev)`: `ensureNotMathMode()` unconditionally; then if
the original selection is in math, walk from the containing math node to
the first content-bearing leaf, build a selection there
(`CursorSelection.fromNode`), set the requested direction and sync it;
null otherwise. -/
def tryExitMath (env : Env) (s : NavState) (sel : Sel) (rev : Bool) :
    Option Sel × NavState :=
  let s1 := ensureNotMathMode s
  if isInMath env sel then
    match env.getContainingMath sel.start with
    | none => (none, s1)
    | some node =>
      match fromNode (findContentLeaf env rev env.fuel node) with
      | some sel2 => (sync env s1 (sel2.setReversed rev), s1)
      | none => (none, s1)
  else (none, s1)

/-- `k` applications of `directedNextLeafNode(·, rev)` starting at a node:
the leaf `k` steps away, when every intermediate step exists. -/
def domStepN (env : Env) (rev : Bool) : Nat → Nat → Option Nat
  | 0, n => some n
  | k + 1, n => (env.directedNextLeafNode n rev).bind (domStepN env rev k)

/-- One public operation of the controller, with its arguments.  `query`
stands for every purely-delegating operation (`next`, `sync`, `act`,
`findNext`, the describe/braille/message calls, the table forwarders,
`isInMath`, the mode queries): none of them touches controller state. -/
inductive Op where
  | makeMoreGranular
  | makeLessGranular
  | setGranularity (g : Nat)
  | getGranularity
  | ensureSubnavigating
  | ensureNotSubnavigating
  | tryEnterTable (sel : Sel) (force fromTop : Bool)
  | ensureNotTableMode
  | tryEnterMath (sel : Sel)
  | tryExitMath (sel : Sel) (rev : Bool)
  | ensureNotMathMode
  | syncToPageBeginning (reversed : Bool)
  | syncNode (sel : Sel)
  | cycleDomain
  | cycleTraversalMode
  | toggleExplore
  | storeOn
  | readFrom (g : Nat)
  | query
deriving DecidableEq, Repr

/-- The state after one public operation (results discarded). -/
def step (env : Env) (s : NavState) : Op → NavState
  | .makeMoreGranular => makeMoreGranular s
  | .makeLessGranular => makeLessGranular s
  | .setGranularity g => setGranularity s g
  | .getGranularity => (getGranularity s).2
  | .ensureSubnavigating => ensureSubnavigating s
  | .ensureNotSubnavigating => ensureNotSubnavigating s
  | .tryEnterTable sel force fromTop => (tryEnterTable env s sel force fromTop).2
  | .ensureNotTableMode => ensureNotTableMode s
  | .tryEnterMath sel => (tryEnterMath env s sel).2
  | .tryExitMath sel rev => (tryExitMath env s sel rev).2
  | .ensureNotMathMode => ensureNotMathMode s
  | .syncToPageBeginning reversed => (syncToPageBeginning env s reversed).2
  | .syncNode sel => (syncNode env s sel).2
  | .cycleDomain => cycleDomain s
  | .cycleTraversalMode => cycleTraversalMode s
  | .toggleExplore => toggleExplore s
  | .storeOn => (storeOn s).2
  | .readFrom g => readFrom s g
  | .query => s

/-- The state after a finite sequence of public operations. -/
def runOps (env : Env) (ops : List Op) (s : NavState) : NavState :=
  ops.foldl (step env) s

end NavigationShifter

/-! ## A small concrete document

One table (node 100) containing node 1, one math region (node 200)
containing node 2, a content-bearing leaf 3 after the math region, and
walkers whose `sync` succeeds everywhere.  Used by the concrete witnesses
and counterexamples. -/

/-- `getContainingTable` on the concrete document: node 1 is in table 100. -/
def containingTable0 (n : Nat) : Option Nat :=
  if n = 1 then some 100 else none

/-- `getContainingMath` on the concrete document: node 2 is in math 200. -/
def containingMath0 (n : Nat) : Option Nat :=
  if n = 2 then some 200 else none

/-- `directedNextLeafNode` on the concrete document: after the math region
comes an empty leaf 4, then the content leaf 3. -/
def nextLeaf0 (n : Nat) (_rev : Bool) : Option Nat :=
  if n = 200 then some 4 else if n = 4 then some 3 else none

/-- The concrete environment over that document. -/
def env0 : Env :=
  { getContainingTable := containingTable0
    isLayoutTable := fun _ => false
    getContainingMath := containingMath0
    directedNextLeafNode := nextLeaf0
    hasContent := fun n => decide (n = 3)
    countFocusableDescendants := fun _ => 0
    walkerSync := fun _ sel => some sel
    walkerSyncToPageBeginning := fun _ rev => some { start := 0, reversed := rev }
    goToFirstCell := fun sel => some { start := sel.start, reversed := false }
    mathIsInMath := fun sel => (containingMath0 sel.start).isSome
    fuel := 10 }

namespace NavigationShifter

/-! ## Helper lemmas -/

/-- Setting a list position to the value it already holds changes nothing. -/
theorem list_set_of_get? {α : Type} (l : List α) (n : Nat) (a : α)
    (h : l.get? n = some a) : l.set n a = l := by
  induction l generalizing n with
  | nil => simp at h
  | cons x xs ih =>
    cases n with
    | zero =>
      simp only [List.get?] at h
      injection h with h
      simp [h]
    | succ m =>
      simp only [List.get?] at h
      simp [ih m h]

/-- The ordinary walker array holds the table walker in no slot. -/
theorem resetWalkers_get?_ne_table (r : Nat) :
    resetWalkers.get? r ≠ some Walker.table := by
  rcases r with _ | _ | _ | _ | _ | _ | _ | r <;> simp [resetWalkers]

/-- The cached current walker is one value, so the two mode queries can
never both hold: `isTableMode` wants it to be the table walker and
`isMathMode` the math walker. -/
theorem tableMode_mathMode_exclusive (s : NavState) :
    (isTableMode s && isMathMode s) = false := by
  unfold isTableMode isMathMode
  by_cases h : s.currentWalker_ = some Walker.table
  · have h2 : s.currentWalker_ ≠ some Walker.math := by simp [h]
    simp [h2]
  · simp [h]

/-- `ensureNotSubnavigating` always leaves the flag cleared. -/
theorem ensureNotSubnavigating_flag (s : NavState) :
    (ensureNotSubnavigating s).isSubnavigating_ = false := by
  unfold ensureNotSubnavigating lessGranularShift
  by_cases h : s.isSubnavigating_ <;> simp [h]

/-- `ensureNotSubnavigating` never touches the walker array. -/
theorem ensureNotSubnavigating_walkers (s : NavState) :
    (ensureNotSubnavigating s).walkers_ = s.walkers_ := by
  unfold ensureNotSubnavigating lessGranularShift
  by_cases h : s.isSubnavigating_ <;> simp [h]

/-- `ensureNotSubnavigating` never touches the table flag. -/
theorem ensureNotSubnavigating_isTableMode_ (s : NavState) :
    (ensureNotSubnavigating s).isTableMode_ = s.isTableMode_ := by
  unfold ensureNotSubnavigating lessGranularShift
  by_cases h : s.isSubnavigating_ <;> simp [h]

/-- `setGranularity` never touches the walker array. -/
theorem setGranularity_walkers (s : NavState) (g : Nat) :
    (setGranularity s g).walkers_ = s.walkers_ := by
  simp [setGranularity, ensureNotSubnavigating_walkers]

/-- `setGranularity` never touches the table flag. -/
theorem setGranularity_isTableMode_ (s : NavState) (g : Nat) :
    (setGranularity s g).isTableMode_ = s.isTableMode_ := by
  simp [setGranularity, ensureNotSubnavigating_isTableMode_]

/-- `setGranularity` refreshes the cached walker from the slot array. -/
theorem setGranularity_currentWalker (s : NavState) (g : Nat) :
    (setGranularity s g).currentWalker_ = s.walkers_.get? g := by
  simp [setGranularity, ensureNotSubnavigating_walkers]

/-- A `tryEnterTable` call that returns a selection has committed table
mode: its post-state is `ensureTableMode_` of the pre-state. -/
theorem tryEnterTable_some_snd (env : Env) (s : NavState) (sel : Sel)
    (force fromTop : Bool)
    (h : (tryEnterTable env s sel force fromTop).1.isSome = true) :
    (tryEnterTable env s sel force fromTop).2 = ensureTableMode_ s := by
  by_cases hflag : s.isTableMode_ = true
  · exfalso
    rw [tryEnterTable, if_pos hflag] at h
    simp at h
  · cases hct : env.getContainingTable sel.start with
    | none =>
      exfalso
      rw [tryEnterTable, if_neg hflag, hct] at h
      simp at h
    | some t =>
      by_cases hforce : (force || !env.isLayoutTable t) = true
      · rw [tryEnterTable, if_neg hflag, hct]
        dsimp only
        rw [if_pos hforce]
        split <;> rfl
      · exfalso
        rw [tryEnterTable, if_neg hflag, hct] at h
        dsimp only at h
        rw [if_neg hforce] at h
        simp at h

/-- Every branch of `tryExitMath` returns the state left by its leading
unconditional `ensureNotMathMode()` call. -/
theorem tryExitMath_snd (env : Env) (s : NavState) (sel : Sel) (rev : Bool) :
    (tryExitMath env s sel rev).2 = ensureNotMathMode s := by
  unfold tryExitMath
  dsimp only
  split
  · split
    · rfl
    · split <;> rfl
  · rfl

/-- A leaf returned by the `tryExitMath` walk is content-bearing and is
reached from the start node by iterating `directedNextLeafNode`, every
strictly earlier stop lacking content. -/
theorem findContentLeaf_spec (env : Env) (rev : Bool) :
    ∀ (fuel node leaf : Nat), findContentLeaf env rev fuel node = some leaf →
      env.hasContent leaf = true ∧
      ∃ k, 1 ≤ k ∧ k ≤ fuel ∧ domStepN env rev k node = some leaf ∧
        ∀ j m, 1 ≤ j → j < k → domStepN env rev j node = some m →
          env.hasContent m = false := by
  intro fuel
  induction fuel with
  | zero => intro node leaf h; simp [findContentLeaf] at h
  | succ n ih =>
    intro node leaf h
    rw [findContentLeaf] at h
    cases hnext : env.directedNextLeafNode node rev with
    | none => rw [hnext] at h; simp at h
    | some m =>
      rw [hnext] at h
      dsimp only at h
      by_cases hc : env.hasContent m = true
      · rw [if_pos hc] at h
        injection h with h
        subst h
        refine ⟨hc, 1, le_refl 1, by omega, ?_, ?_⟩
        · simp [domStepN, hnext]
        · intro j m2 hj1 hj2 _
          omega
      · have hcf : env.hasContent m = false := by
          revert hc; cases env.hasContent m <;> simp
        rw [if_neg hc] at h
        obtain ⟨hcl, k, hk1, hkn, hstep, hmid⟩ := ih m leaf h
        refine ⟨hcl, k + 1, by omega, by omega, ?_, ?_⟩
        · simp only [domStepN, hnext, Option.some_bind]
          exact hstep
        · intro j m2 hj1 hjk hstepj
          cases j with
          | zero => omega
          | succ j0 =>
            simp only [domStepN, hnext, Option.some_bind] at hstepj
            cases Nat.lt_or_ge j0 1 with
            | inl hj0 =>
              have hj00 : j0 = 0 := by omega
              subst hj00
              simp only [domStepN] at hstepj
              injection hstepj with hstepj
              subst hstepj
              exact hcf
            | inr hj0 =>
              exact hmid j0 m2 hj0 (by omega) hstepj

/-! ## Claims -/

/-- Claim C1: for every finite sequence of the controller's public
operations from the reset state, `isTableMode()` and `isMathMode()` are
never both true after an operation returns (in particular after a
successful `tryEnterMath` followed by a successful `tryEnterTable`). -/
theorem c1_table_math_never_both (env : Env) (ops : List Op) :
    (isTableMode (runOps env ops resetState) &&
      isMathMode (runOps env ops resetState)) = false :=
  tableMode_mathMode_exclusive _

/-- Claim C7 (theorem): `storeOn` captures only the granularity rank, so
`readFrom` of that store on a freshly constructed controller restores the
rank and nothing else: the new controller is in neither table mode nor math
mode nor subnavigation. -/
theorem c7_store_restores_only_rank (s : NavState)
    (_h : isTableMode s = true) :
    isTableMode (readFrom resetState (storeOn s).1) = false ∧
    isMathMode (readFrom resetState (storeOn s).1) = false ∧
    isSubnavigating (readFrom resetState (storeOn s).1) = false ∧
    (readFrom resetState (storeOn s).1).currentWalkerIndex_ = (storeOn s).1 := by
  refine ⟨?_, ?_, ?_, ?_⟩ <;>
    simp [readFrom, setGranularity, ensureNotSubnavigating, resetState,
      isTableMode, isMathMode, isSubnavigating]

/-- Claim C7 (witness): entering a table from the reset state, storing,
then reading the store back into a fresh controller leaves the fresh
controller out of every mode. -/
theorem c7_witness :
    isTableMode (readFrom resetState
      (storeOn (tryEnterTable env0 resetState { start := 1, reversed := false }
        false false).2).1) = false ∧
    isMathMode (readFrom resetState
      (storeOn (tryEnterTable env0 resetState { start := 1, reversed := false }
        false false).2).1) = false ∧
    isSubnavigating (readFrom resetState
      (storeOn (tryEnterTable env0 resetState { start := 1, reversed := false }
        false false).2).1) = false ∧
    (readFrom resetState
      (storeOn (tryEnterTable env0 resetState { start := 1, reversed := false }
        false false).2).1).currentWalkerIndex_ =
      (storeOn (tryEnterTable env0 resetState { start := 1, reversed := false }
        false false).2).1 :=
  c7_store_restores_only_rank _ (by decide)

/-- Claim C8: `setGranularity`, `makeMoreGranular` and `makeLessGranular`
each begin with `ensureNotSubnavigating()`, so `isSubnavigating()` is false
immediately after any of them returns, from every state and for every
argument. -/
theorem c8_granularity_change_cancels_subnav (s : NavState) (g : Nat) :
    isSubnavigating (setGranularity s g) = false ∧
    isSubnavigating (makeMoreGranular s) = false ∧
    isSubnavigating (makeLessGranular s) = false := by
  refine ⟨?_, ?_, ?_⟩ <;>
    simp [isSubnavigating, setGranularity, makeMoreGranular, makeLessGranular,
      moreGranularShift, lessGranularShift, ensureNotSubnavigating_flag,
      ensureNotSubnavigating] <;>
    by_cases h : s.isSubnavigating_ <;> simp [h]

/-- Claim C10: `ensureNotMathMode` always invokes `reset()` on the math
walker — also on the unconditional call at the start of `tryExitMath`, and
when math mode is not active — so sub-mode state set through
`cycleDomain`, `cycleTraversalMode` or `toggleExplore` never survives a
math-mode exit: afterwards the sub-mode equals the initial configuration. -/
theorem c10_exit_math_resets_walker (s : NavState) (env : Env) (sel : Sel)
    (rev : Bool) :
    (ensureNotMathMode s).mathWalkerState_ = s.mathWalkerState_.reset ∧
    (ensureNotMathMode s).mathWalkerState_.domain = initMathWalkerState.domain ∧
    (ensureNotMathMode s).mathWalkerState_.traversalMode =
      initMathWalkerState.traversalMode ∧
    (ensureNotMathMode s).mathWalkerState_.explore = initMathWalkerState.explore ∧
    (tryExitMath env s sel rev).2.mathWalkerState_.domain =
      initMathWalkerState.domain ∧
    (tryExitMath env s sel rev).2.mathWalkerState_.traversalMode =
      initMathWalkerState.traversalMode ∧
    (tryExitMath env s sel rev).2.mathWalkerState_.explore =
      initMathWalkerState.explore := by
  have hsnd := tryExitMath_snd env s sel rev
  refine ⟨rfl, ?_, ?_, ?_, ?_, ?_, ?_⟩ <;>
    simp [hsnd, ensureNotMathMode, MathWalkerState.reset, initMathWalkerState]

/-- Claim C2 (counterexample): starting from rank CHARACTER (0), not
subnavigating, the round trip `ensureSubnavigating(); ensureNotSubnavigating()`
leaves `getGranularity()` at 1 (WORD), not at 0: subnavigating from rank 0
clamps in place and the exit still shifts one step less granular. -/
theorem c2_cex :
    (setGranularity resetState 0).isSubnavigating_ = false ∧
    (setGranularity resetState 0).currentWalkerIndex_ = 0 ∧
    (getGranularity (ensureNotSubnavigating (ensureSubnavigating
      (setGranularity resetState 0)))).fst = 1 := by decide

/-- Claim C2 (amended): for every starting rank 1..6 with the controller
not subnavigating, `ensureSubnavigating()` followed immediately by
`ensureNotSubnavigating()` restores `getGranularity()` to the starting
rank.  (At rank 0 the round trip ends at rank 1 — see the counterexample.) -/
theorem c2_subnav_roundtrip (s : NavState) (r : Nat)
    (hsub : s.isSubnavigating_ = false)
    (hidx : s.currentWalkerIndex_ = r)
    (hlen : s.walkers_.length = 7)
    (h1 : 1 ≤ r) (h6 : r ≤ 6) :
    (getGranularity (ensureNotSubnavigating (ensureSubnavigating s))).fst = r := by
  simp only [ensureSubnavigating, hsub, if_true, makeMoreGranular,
    ensureNotSubnavigating, moreGranularShift, lessGranularShift,
    getGranularity, isSubnavigating, hidx, hlen]
  simp
  omega

/-- Claim C2 (witness): the round trip at starting rank 3 returns to 3. -/
theorem c2_witness :
    (getGranularity (ensureNotSubnavigating (ensureSubnavigating
      (setGranularity resetState 3)))).fst = 3 :=
  c2_subnav_roundtrip _ 3 (by decide) (by decide) (by decide) (by decide)
    (by decide)

/-- Claim C4 (counterexample): with baseline rank CHARACTER (0) and
subnavigation active, `getGranularity()` returns 1 (WORD), not the
baseline 0: exiting the clamped subnavigation overshoots by one. -/
theorem c4_cex :
    (ensureSubnavigating (setGranularity resetState 0)).isSubnavigating_ = true ∧
    (getGranularity (ensureSubnavigating (setGranularity resetState 0))).fst = 1 := by
  decide

/-- Claim C4 (amended): for every baseline rank 1..6, `getGranularity()`
returns the baseline — never the transient one-level-more-granular
subnavigation level — and leaves the whole state (in particular the
subnavigation flag and current index) exactly as before the query, whether
or not subnavigating.  With baseline CHARACTER (0) and subnavigation
active it returns 1 instead, still restoring the state. -/
theorem c4_getGranularity_baseline (s : NavState) (r : Nat)
    (h1 : 1 ≤ r) (h6 : r ≤ 6) (hlen : s.walkers_.length = 7) :
    (getGranularity (setGranularity s r)).fst = r ∧
    (getGranularity (setGranularity s r)).snd = setGranularity s r ∧
    (getGranularity (ensureSubnavigating (setGranularity s r))).fst = r ∧
    (getGranularity (ensureSubnavigating (setGranularity s r))).snd =
      ensureSubnavigating (setGranularity s r) ∧
    (getGranularity (ensureSubnavigating (setGranularity s 0))).fst = 1 ∧
    (getGranularity (ensureSubnavigating (setGranularity s 0))).snd =
      ensureSubnavigating (setGranularity s 0) := by
  obtain ⟨sub, tbl, mth, wlk, idx, cur, mws⟩ := s
  simp only [NavState.walkers_] at hlen
  by_cases hs : sub <;>
    simp_all [getGranularity, setGranularity, ensureSubnavigating,
      ensureNotSubnavigating, makeMoreGranular, moreGranularShift,
      lessGranularShift, isSubnavigating]

/-- Claim C4 (witness): baseline rank 2 with and without subnavigation. -/
theorem c4_witness :
    (getGranularity (setGranularity resetState 2)).fst = 2 ∧
    (getGranularity (setGranularity resetState 2)).snd =
      setGranularity resetState 2 ∧
    (getGranularity (ensureSubnavigating (setGranularity resetState 2))).fst = 2 ∧
    (getGranularity (ensureSubnavigating (setGranularity resetState 2))).snd =
      ensureSubnavigating (setGranularity resetState 2) ∧
    (getGranularity (ensureSubnavigating (setGranularity resetState 0))).fst = 1 ∧
    (getGranularity (ensureSubnavigating (setGranularity resetState 0))).snd =
      ensureSubnavigating (setGranularity resetState 0) :=
  c4_getGranularity_baseline resetState 2 (by decide) (by decide) (by decide)

/-- Claim C3 (counterexample): `ensureNotTableMode()` called while math
mode is active — a state in which `isTableMode()` is false — observably
changes the controller: `isMathMode()` flips from true to false, because
the call unconditionally puts the group walker back into the GROUP slot. -/
theorem c3_cex :
    isTableMode (tryEnterMath env0 resetState
      { start := 2, reversed := false }).2 = false ∧
    isMathMode (tryEnterMath env0 resetState
      { start := 2, reversed := false }).2 = true ∧
    isMathMode (ensureNotTableMode (tryEnterMath env0 resetState
      { start := 2, reversed := false }).2) = false := by decide

/-- Claim C3 (amended): `ensureNotTableMode()` changes nothing when the
internal table flag is already clear, the GROUP slot already holds the
ordinary group walker and the cached current walker agrees with its slot:
the state is then unchanged, so every query and delegation target is as if
the call had not been made.  (When math mode is active the call observably
exits math mode — see the counterexample.) -/
theorem c3_ensureNotTableMode_noop (s : NavState)
    (hflag : s.isTableMode_ = false)
    (hslot : s.walkers_.get? 5 = some Walker.group)
    (hcur : s.currentWalker_ = s.walkers_.get? s.currentWalkerIndex_) :
    ensureNotTableMode s = s := by
  have hset : s.walkers_.set 5 Walker.group = s.walkers_ :=
    list_set_of_get? _ _ _ hslot
  unfold ensureNotTableMode GRANULARITIES.GROUP
  obtain ⟨sub, tbl, mth, wlk, idx, cur, mws⟩ := s
  simp_all

/-- Claim C3 (witness): on the reset state (not in table mode, group
walker in the GROUP slot) `ensureNotTableMode()` is the identity. -/
theorem c3_witness : ensureNotTableMode resetState = resetState :=
  c3_ensureNotTableMode_noop resetState rfl rfl rfl

/-- Claim C5 (counterexample): entering a genuine table while
subnavigating succeeds and sets table mode, but `getGranularity()` then
reports 6 (VISUAL), not 5 (GROUP): `ensureTableMode_` forces the index to
GROUP without cancelling subnavigation, and the query's temporary
subnavigation exit shifts past it. -/
theorem c5_cex :
    isTableMode (ensureSubnavigating (setGranularity resetState 4)) = false ∧
    isSubnavigating (ensureSubnavigating (setGranularity resetState 4)) = true ∧
    (tryEnterTable env0 (ensureSubnavigating (setGranularity resetState 4))
      { start := 1, reversed := false } false false).1.isSome = true ∧
    isTableMode (tryEnterTable env0 (ensureSubnavigating (setGranularity resetState 4))
      { start := 1, reversed := false } false false).2 = true ∧
    (getGranularity (tryEnterTable env0
      (ensureSubnavigating (setGranularity resetState 4))
      { start := 1, reversed := false } false false).2).fst = 6 := by decide

/-- Claim C5 (amended): with the internal table flag clear and the
controller not subnavigating — and assuming the table walker's contract
that `sync`/`goToFirstCell` succeed on a selection inside a table —
`tryEnterTable` on a selection outside any table returns null and changes
nothing, leaving `isTableMode()` false; on a selection inside a non-layout
table (or any containing table when forced) it returns a non-null
selection, `isTableMode()` becomes true, and `getGranularity()` reports
GROUP.  (While subnavigating, `getGranularity()` instead reports VISUAL —
see the counterexample.) -/
theorem c5_tryEnterTable (env : Env) (s : NavState) (sel : Sel)
    (force fromTop : Bool)
    (hflag : s.isTableMode_ = false)
    (hsub : s.isSubnavigating_ = false)
    (hlen : s.walkers_.length = 7)
    (hsyncT : ∀ sel2 : Sel, (env.getContainingTable sel2.start).isSome = true →
      (env.walkerSync Walker.table sel2).isSome = true)
    (hfirst : ∀ sel2 : Sel, (env.getContainingTable sel2.start).isSome = true →
      (env.goToFirstCell sel2).isSome = true) :
    (env.getContainingTable sel.start = none →
      tryEnterTable env s sel force fromTop = (none, s) ∧
      isTableMode s = false) ∧
    (∀ t, env.getContainingTable sel.start = some t →
      (force || !env.isLayoutTable t) = true →
      (tryEnterTable env s sel force fromTop).1.isSome = true ∧
      isTableMode (tryEnterTable env s sel force fromTop).2 = true ∧
      (getGranularity (tryEnterTable env s sel force fromTop).2).fst =
        GRANULARITIES.GROUP) := by
  constructor
  · intro hnone
    constructor
    · simp [tryEnterTable, hflag, hnone]
    · simp [isTableMode, hflag]
  · intro t ht hforce
    have h5 : (5 : Nat) < s.walkers_.length := by omega
    have hcur : (ensureTableMode_ s).currentWalker_ = some Walker.table := by
      simp [ensureTableMode_, GRANULARITIES.GROUP,
        List.getElem?_set_eq_of_lt _ h5]
    have hres : tryEnterTable env s sel force fromTop =
        if fromTop then (env.goToFirstCell sel, ensureTableMode_ s)
        else (sync env (ensureTableMode_ s) sel, ensureTableMode_ s) := by
      simp [tryEnterTable, hflag, ht, hforce]
    have hsnd : (tryEnterTable env s sel force fromTop).2 = ensureTableMode_ s := by
      rw [hres]; split <;> rfl
    have hflag1 : (ensureTableMode_ s).isTableMode_ = true := rfl
    have hsub1 : (ensureTableMode_ s).isSubnavigating_ = false := hsub
    refine ⟨?_, ?_, ?_⟩
    · rw [hres]
      by_cases hf : fromTop
      · simpa [hf] using hfirst sel (by simp [ht])
      · have := hsyncT sel (by simp [ht])
        simpa [hf, sync, hcur] using this
    · rw [hsnd]
      simp [isTableMode, hcur, hflag1]
    · rw [hsnd]
      simp [getGranularity, isSubnavigating, hsub, hsub1, ensureNotSubnavigating,
        ensureTableMode_, GRANULARITIES.GROUP]

/-- Claim C5 (witness): on the concrete document, a selection outside any
table (node 7) yields null with table mode off, and a selection inside the
table (node 1) enters it at GROUP granularity. -/
theorem c5_witness :
    (env0.getContainingTable (7 : Nat) = none →
      tryEnterTable env0 resetState { start := 7, reversed := false } false false =
        (none, resetState) ∧
      isTableMode resetState = false) ∧
    (∀ t, env0.getContainingTable (7 : Nat) = some t →
      (false || !env0.isLayoutTable t) = true →
      (tryEnterTable env0 resetState { start := 7, reversed := false }
        false false).1.isSome = true ∧
      isTableMode (tryEnterTable env0 resetState { start := 7, reversed := false }
        false false).2 = true ∧
      (getGranularity (tryEnterTable env0 resetState
        { start := 7, reversed := false } false false).2).fst =
        GRANULARITIES.GROUP) :=
  c5_tryEnterTable env0 resetState { start := 7, reversed := false } false false
    rfl rfl (by decide) (fun _ _ => rfl) (fun _ _ => rfl)

/-- Claim C9: after a successful `tryEnterTable`, `setGranularity` to any
rank other than GROUP makes `isTableMode()` false, yet every subsequent
`tryEnterTable` (any selection, any environment) still returns null and
leaves the state unchanged — the no-op guard tests the internal
`isTableMode_` flag, not the public query — and the GROUP slot still holds
the table walker, so `setGranularity` back to GROUP makes `isTableMode()`
true again without a new enter call. -/
theorem c9_stale_table_flag (env : Env) (s : NavState) (sel : Sel)
    (force fromTop : Bool) (r : Nat)
    (hsucc : (tryEnterTable env s sel force fromTop).1.isSome = true)
    (hr : r ≠ 5)
    (hslots : ∀ i, i ≠ 5 → s.walkers_.get? i = resetWalkers.get? i) :
    isTableMode (setGranularity (tryEnterTable env s sel force fromTop).2 r) =
      false ∧
    (∀ (env2 : Env) (sel2 : Sel) (force2 fromTop2 : Bool),
      tryEnterTable env2
        (setGranularity (tryEnterTable env s sel force fromTop).2 r)
        sel2 force2 fromTop2 =
      (none, setGranularity (tryEnterTable env s sel force fromTop).2 r)) ∧
    (setGranularity (tryEnterTable env s sel force fromTop).2 r).walkers_.get? 5 =
      some Walker.table ∧
    isTableMode (setGranularity
      (setGranularity (tryEnterTable env s sel force fromTop).2 r) 5) = true := by
  rw [tryEnterTable_some_snd env s sel force fromTop hsucc]
  have h6 : (6 : Nat) < s.walkers_.length := by
    have := hslots 6 (by omega)
    rw [List.get?_eq_getElem?] at this
    have := (List.getElem?_eq_some_iff.mp (by rw [this]; rfl)).1
    exact this
  have hwalk1 : (ensureTableMode_ s).walkers_ = s.walkers_.set 5 Walker.table := rfl
  have hflag1 : (ensureTableMode_ s).isTableMode_ = true := rfl
  have hcur2 : (setGranularity (ensureTableMode_ s) r).currentWalker_ =
      resetWalkers.get? r := by
    rw [setGranularity_currentWalker, hwalk1, List.get?_eq_getElem?,
      List.getElem?_set_ne (by omega : (5 : Nat) ≠ r), ← List.get?_eq_getElem?]
    exact hslots r hr
  have hflag2 : (setGranularity (ensureTableMode_ s) r).isTableMode_ = true := by
    rw [setGranularity_isTableMode_, hflag1]
  have hwalk2 : (setGranularity (ensureTableMode_ s) r).walkers_ =
      s.walkers_.set 5 Walker.table := by
    rw [setGranularity_walkers, hwalk1]
  have hslot5 : (setGranularity (ensureTableMode_ s) r).walkers_.get? 5 =
      some Walker.table := by
    rw [hwalk2, List.get?_eq_getElem?]
    exact List.getElem?_set_eq_of_lt _ (by omega)
  refine ⟨?_, ?_, hslot5, ?_⟩
  · rw [isTableMode, hcur2]
    have hne := resetWalkers_get?_ne_table r
    rw [List.get?_eq_getElem?] at hne
    simp [hne]
  · intro env2 sel2 force2 fromTop2
    unfold tryEnterTable
    rw [hflag2]
    simp
  · rw [isTableMode, setGranularity_currentWalker, hslot5,
      setGranularity_isTableMode_, hflag2]
    simp

/-- Claim C9 (witness): on the concrete document, enter the table at node
1, set granularity to OBJECT (4): the query is false, re-entry is a no-op,
the GROUP slot still holds the table walker, and setting GROUP (5) makes
the query true again. -/
theorem c9_witness :
    isTableMode (setGranularity (tryEnterTable env0 resetState
      { start := 1, reversed := false } false false).2 4) = false ∧
    (∀ (env2 : Env) (sel2 : Sel) (force2 fromTop2 : Bool),
      tryEnterTable env2 (setGranularity (tryEnterTable env0 resetState
        { start := 1, reversed := false } false false).2 4) sel2 force2 fromTop2 =
      (none, setGranularity (tryEnterTable env0 resetState
        { start := 1, reversed := false } false false).2 4)) ∧
    (setGranularity (tryEnterTable env0 resetState
      { start := 1, reversed := false } false false).2 4).walkers_.get? 5 =
      some Walker.table ∧
    isTableMode (setGranularity (setGranularity (tryEnterTable env0 resetState
      { start := 1, reversed := false } false false).2 4) 5) = true :=
  c9_stale_table_flag env0 resetState { start := 1, reversed := false }
    false false 4 (by decide) (by decide) (fun _ _ => rfl)

/-- Claim C6: `tryExitMath(sel, rev)` leaves `isMathMode()` false in every
case — its post-state is exactly the `ensureNotMathMode()` exit, which
happens unconditionally.  It returns null when the original selection was
not inside a math region (assuming the math walker's contract that
`isInMath` answers containment, whose source is not under `src/`); when it
was, it walks leaf-by-leaf in direction `rev` from the containing math
node — each visited leaf reached by iterating `directedNextLeafNode`,
every leaf before the stop lacking content — and returns the synced
selection at the first content-bearing leaf with the requested direction,
or null if no content-bearing leaf remains. -/
theorem c6_tryExitMath (env : Env) (s : NavState) (sel : Sel) (rev : Bool)
    (hin : ∀ sel2 : Sel,
      env.mathIsInMath sel2 = (env.getContainingMath sel2.start).isSome) :
    isMathMode (tryExitMath env s sel rev).2 = false ∧
    (tryExitMath env s sel rev).2 = ensureNotMathMode s ∧
    (env.getContainingMath sel.start = none →
      (tryExitMath env s sel rev).1 = none) ∧
    (∀ node, env.getContainingMath sel.start = some node →
      (findContentLeaf env rev env.fuel node = none →
        (tryExitMath env s sel rev).1 = none) ∧
      (∀ leaf, findContentLeaf env rev env.fuel node = some leaf →
        env.hasContent leaf = true ∧
        (∃ k, 1 ≤ k ∧ k ≤ env.fuel ∧ domStepN env rev k node = some leaf ∧
          ∀ j m, 1 ≤ j → j < k → domStepN env rev j node = some m →
            env.hasContent m = false) ∧
        (tryExitMath env s sel rev).1 =
          sync env (ensureNotMathMode s) { start := leaf, reversed := rev })) := by
  have hsnd := tryExitMath_snd env s sel rev
  have hmm : (ensureNotMathMode s).isMathMode_ = false := rfl
  refine ⟨?_, hsnd, ?_, ?_⟩
  · rw [hsnd, isMathMode, hmm]
    simp
  · intro hnone
    simp [tryExitMath, isInMath, hin sel, hnone]
  · intro node hsome
    have hguard : isInMath env sel = true := by
      simp [isInMath, hin sel, hsome]
    constructor
    · intro hnone
      simp [tryExitMath, hguard, hsome, hnone, fromNode]
    · intro leaf hleaf
      obtain ⟨hcl, hchain⟩ := findContentLeaf_spec env rev env.fuel node leaf hleaf
      refine ⟨hcl, hchain, ?_⟩
      simp [tryExitMath, hguard, hsome, hleaf, fromNode, Sel.setReversed]

/-- Claim C6 (witness): on the concrete document, exiting math from the
selection at node 2 (inside math region 200) walks past the empty leaf 4
to the content leaf 3 and returns the reversed synced selection there;
`isMathMode()` is false afterwards. -/
theorem c6_witness :
    isMathMode (tryExitMath env0 resetState { start := 2, reversed := false }
      true).2 = false ∧
    (tryExitMath env0 resetState { start := 2, reversed := false } true).2 =
      ensureNotMathMode resetState ∧
    (env0.getContainingMath (2 : Nat) = none →
      (tryExitMath env0 resetState { start := 2, reversed := false } true).1 =
        none) ∧
    (∀ node, env0.getContainingMath (2 : Nat) = some node →
      (findContentLeaf env0 true env0.fuel node = none →
        (tryExitMath env0 resetState { start := 2, reversed := false } true).1 =
          none) ∧
      (∀ leaf, findContentLeaf env0 true env0.fuel node = some leaf →
        env0.hasContent leaf = true ∧
        (∃ k, 1 ≤ k ∧ k ≤ env0.fuel ∧ domStepN env0 true k node = some leaf ∧
          ∀ j m, 1 ≤ j → j < k → domStepN env0 true j node = some m →
            env0.hasContent m = false) ∧
        (tryExitMath env0 resetState { start := 2, reversed := false } true).1 =
          sync env0 (ensureNotMathMode resetState)
            { start := leaf, reversed := true })) :=
  c6_tryExitMath env0 resetState { start := 2, reversed := false } true
    (fun _ => rfl)

end NavigationShifter

